import Mathlib

/-!
Verification of the scrapper repository's task-scheduling core against its
natural-language specification.

The definitions below are a shallow embedding of the TypeScript sources:

* `src/core/BaseManager.ts` (classes `BaseManager` and `RequestQueue`):
  `getDomain`, `enforceRateLimit`, `calculateBackoff`, `add`, `addBatch`,
  `destroy`;
* `src/services/ProgressTracker.ts` (class `ProgressTracker`):
  `calculateSpeed`, `calculateETA`, `start`, `updateProgress`, `complete`,
  `pause`, `resume`, `cancel`;
* `src/services/ImageDownloader.ts` (method `downloadSingleImage`);
* `src/types/index.ts` (`DownloadStatus` and the error classes).

Timestamps are integers (milliseconds), JavaScript numbers that take part in
real arithmetic (backoff delays, speeds) are rationals, JavaScript `Map`s are
association lists over `String` keys, and the event-emitter calls are made
explicit as lists of emitted events returned next to the new state.
-/

namespace Scrapper

/-! ### Character-list string helpers

JavaScript's `String.prototype.includes` and the pieces of WHATWG URL parsing
used by `RequestQueue.getDomain` are modelled over the underlying character
lists, so that everything evaluates inside the kernel. -/

/-- Computes whether `pat` occurs at the very front of `l`. -/
def leadsWith : List Char → List Char → Bool
  | [], _ => true
  | _ :: _, [] => false
  | a :: as, b :: bs => a == b && leadsWith as bs

/-- Computes whether `pat` occurs anywhere inside `l`; this models
JavaScript's `String.prototype.includes` on the character list. -/
def containsSeq (pat : List Char) : List Char → Bool
  | [] => leadsWith pat []
  | c :: rest => leadsWith pat (c :: rest) || containsSeq pat rest

/-- Splits `l` at the first occurrence of `pat`, returning the part before the
occurrence and the part after it, or `none` when `pat` does not occur. -/
def splitAtSeq (pat : List Char) : List Char → Option (List Char × List Char)
  | [] => if leadsWith pat [] then some ([], []) else none
  | c :: rest =>
    if leadsWith pat (c :: rest) then some ([], (c :: rest).drop pat.length)
    else (splitAtSeq pat rest).map (fun p => (c :: p.1, p.2))

/-! ### Association-list maps with string keys (JavaScript `Map`) -/

/-- Model of a JavaScript `Map` with string keys: an association list in
insertion order, with at most one binding per key. -/
def Smap (α : Type) : Type := List (String × α)

instance {α : Type} [DecidableEq α] : DecidableEq (Smap α) :=
  inferInstanceAs (DecidableEq (List (String × α)))

instance {α : Type} [Repr α] : Repr (Smap α) :=
  inferInstanceAs (Repr (List (String × α)))

instance {α : Type} : Membership (String × α) (Smap α) :=
  inferInstanceAs (Membership (String × α) (List (String × α)))

/-- Model of `Map.prototype.get` (as `Option`). -/
def Smap.lookup {α : Type} (m : Smap α) (k : String) : Option α :=
  (List.find? (fun p => p.1 == k) m).map (·.2)

/-- Model of `Map.prototype.set`: overwrite the binding in place when the key
is present, append a fresh binding otherwise. -/
def Smap.set {α : Type} : Smap α → String → α → Smap α
  | [], k, v => [(k, v)]
  | p :: rest, k, v =>
    if p.1 == k then (k, v) :: rest else p :: Smap.set rest k v

/-- Model of `Map.prototype.delete`. -/
def Smap.erase {α : Type} (m : Smap α) (k : String) : Smap α :=
  List.filter (fun p => !(p.1 == k)) m

theorem Smap.lookup_set_self {α : Type} (m : Smap α) (k : String) (v : α) :
    (m.set k v).lookup k = some v := by
  induction m with
  | nil => simp [Smap.set, Smap.lookup, List.find?]
  | cons p rest ih =>
    by_cases h : p.1 = k
    · simp [Smap.set, Smap.lookup, List.find?, h]
    · simp only [Smap.set, Smap.lookup, List.find?] at ih ⊢
      simp [h, ih]

theorem Smap.lookup_erase_self {α : Type} (m : Smap α) (k : String) :
    (m.erase k).lookup k = none := by
  induction m with
  | nil => simp [Smap.erase, Smap.lookup]
  | cons p rest ih =>
    by_cases h : p.1 = k
    · simp only [Smap.erase, Smap.lookup] at ih ⊢
      simp [h, ih]
    · simp only [Smap.erase, Smap.lookup, List.find?] at ih ⊢
      simp [h, ih]

end Scrapper

namespace Scrapper.RequestQueue

/-! ### RequestQueue (src/core/BaseManager.ts, class `RequestQueue`) -/

/-- Merged `performance`/`retry` configuration handed to the `RequestQueue`
constructor (`src/types/index.ts`, `AppConfig`). -/
structure QueueConfig where
  maxConcurrent : Nat
  requestDelay : Int
  batchSize : Nat
  maxRetries : Nat
  backoffMultiplier : ℚ
  maxDelay : ℚ
  deriving Repr

/-- Model of the WHATWG `URL` constructor as used on line 449: an absolute URL
`scheme://host/…` with a nonempty scheme and host parses to its hostname;
every other string makes the constructor throw, modelled as `none`. -/
def urlHostname (url : String) : Option String :=
  match splitAtSeq "://".data url.data with
  | none => none
  | some (scheme, rest) =>
    if scheme.isEmpty then none
    else
      let host := rest.takeWhile (fun c => c != '/')
      if host.isEmpty then none else some (String.mk host)

/-- Embedding of `RequestQueue.getDomain` (lines 447-453): the hostname of the
URL, or the string `"unknown"` when the `URL` constructor throws. -/
def getDomain (url : String) : String :=
  match urlHostname url with
  | some h => h
  | none => "unknown"

/-- Per-domain rate-limiting state of a `RequestQueue`
(fields `lastRequestTime` and `requestCounts`, lines 409-410). -/
structure RateState where
  lastRequestTime : Smap Int
  requestCounts : Smap Int
  deriving DecidableEq, Repr

/-- Embedding of `RequestQueue.enforceRateLimit` (lines 455-472) executed
without interleaved writers, called at time `now`.  The returned integer is
the dispatch timestamp, i.e. the `Date.now()` value written into
`lastRequestTime` on line 467: when a wait is needed the task sleeps until
`lastRequest + requestDelay` and records that wake time, otherwise it records
`now` directly. -/
def enforceRateLimit (requestDelay : Int) (st : RateState) (domain : String)
    (now : Int) : Int × RateState :=
  let lastRequest := (st.lastRequestTime.lookup domain).getD 0
  let timeSinceLastRequest := now - lastRequest
  let dispatchTime :=
    if timeSinceLastRequest < requestDelay then
      now + (requestDelay - timeSinceLastRequest)
    else now
  let currentCount := (st.requestCounts.lookup domain).getD 0
  (dispatchTime,
    { lastRequestTime := st.lastRequestTime.set domain dispatchTime,
      requestCounts := st.requestCounts.set domain (currentCount + 1) })

/-- Phase of one caller running `enforceRateLimit` concurrently: it has not
started, it has read `lastRequestTime` and is sleeping until `wake` (the
`await this.sleep(waitTime)` on line 464 is the only suspension point between
the read on line 457 and the write on line 467), or it has written its
dispatch timestamp. -/
inductive RLPhase
  | ready
  | waiting (wake : Int)
  | done (dispatch : Int)
  deriving DecidableEq, Repr

/-- Global state of several callers interleaving `enforceRateLimit` on the
same destination key: the per-caller phases, the shared `lastRequestTime`
entry for that key, and the current clock. -/
structure RLConc where
  callers : List RLPhase
  lastRequestTime : Smap Int
  clock : Int
  deriving DecidableEq, Repr

/-- One atomic step of caller `i`: a `ready` caller performs the read and the
wait computation of lines 456-463; a `waiting` caller wakes (time advances to
its wake time) and performs the write of line 467, which is its dispatch. -/
def rlStep (requestDelay : Int) (domain : String) (s : RLConc) (i : Nat) :
    RLConc :=
  match s.callers[i]? with
  | some .ready =>
    let lastRequest := (s.lastRequestTime.lookup domain).getD 0
    let timeSinceLastRequest := s.clock - lastRequest
    let wake :=
      if timeSinceLastRequest < requestDelay then
        s.clock + (requestDelay - timeSinceLastRequest)
      else s.clock
    { s with callers := s.callers.set i (.waiting wake) }
  | some (.waiting w) =>
    let t := max s.clock w
    { callers := s.callers.set i (.done t),
      lastRequestTime := s.lastRequestTime.set domain t,
      clock := t }
  | _ => s

/-- Runs the interleaved callers under an explicit schedule (a list of caller
indices). -/
def rlRun (requestDelay : Int) (domain : String) (s : RLConc)
    (sched : List Nat) : RLConc :=
  sched.foldl (rlStep requestDelay domain) s

/-- Embedding of `RequestQueue.calculateBackoff` (lines 478-489): the source
computes `min(1000 * backoffMultiplier ** attempt, maxDelay)` and adds
`Math.random() * 0.1` of it as jitter; `rand` stands for the `Math.random()`
draw, a value in `[0, 1)`. -/
def calculateBackoff (backoffMultiplier maxDelay : ℚ) (attempt : ℕ)
    (rand : ℚ) : ℚ :=
  let baseDelay : ℚ := 1000
  let delay := min (baseDelay * backoffMultiplier ^ attempt) maxDelay
  let jitter := rand * ((1 : ℚ) / 10) * delay
  delay + jitter

/-- Follows the spec's words (§4.2), for comparison with `calculateBackoff`:
`delay(attempt) = min(baseDelay * multiplier^(attempt-1), maxDelay) + jitter`
with `baseDelay = 1000` and jitter a fraction `rand` of `0.1 * delay`. -/
def backoffSpecDelay (backoffMultiplier maxDelay : ℚ) (attempt : ℕ)
    (rand : ℚ) : ℚ :=
  let delay := min (1000 * backoffMultiplier ^ (attempt - 1)) maxDelay
  let jitter := rand * ((1 : ℚ) / 10) * delay
  delay + jitter

/-- Options bag of `RequestQueue.add` (lines 493-499) with the defaults of
lines 501-507; `none` stands for an omitted option. -/
structure AddOptions where
  priority : Int := 0
  retries : Option Nat := none
  url : Option String := none
  deriving DecidableEq, Repr

/-- The scheduling-relevant part of the `QueueItem` built by
`RequestQueue.add` (lines 509-519). -/
structure QueueItemModel where
  domain : String
  priority : Int
  maxRetries : Nat
  deriving DecidableEq, Repr

/-- Builds the queue item `RequestQueue.add` creates for the given options:
the `url` option defaults to `'unknown'` (line 504), `retries` defaults to
`config.maxRetries` (line 503), and the rate-limiting destination key is
`getDomain(url)` (line 509). -/
def addItem (cfg : QueueConfig) (opts : AddOptions) : QueueItemModel :=
  { domain := getDomain (opts.url.getD "unknown"),
    priority := opts.priority,
    maxRetries := opts.retries.getD cfg.maxRetries }

/-- Outcome of a call to `RequestQueue.add` as seen by the caller at
submission time: the task was handed to the internal `PQueue`, or it was
rejected immediately with an error message.  The source's `add`
(lines 491-575) has no rejection path: it unconditionally wraps the task and
calls `this.queue.add`. -/
inductive AddOutcome
  | enqueued
  | rejected (msg : String)
  deriving DecidableEq, Repr

/-- Internal state of a `RequestQueue`: the queued items together with the
three maps of lines 408-410. -/
structure RQState where
  queued : List QueueItemModel
  lastRequestTime : Smap Int
  requestCounts : Smap Int
  rateLimitMap : Smap Int
  deriving DecidableEq, Repr

/-- Embedding of `RequestQueue.add` (lines 491-575) at submission time: the
item is always enqueued; nothing in the source inspects any closed/destroyed
flag (no such flag exists). -/
def add (cfg : QueueConfig) (q : RQState) (opts : AddOptions) :
    RQState × AddOutcome :=
  ({ q with queued := q.queued ++ [addItem cfg opts] }, .enqueued)

/-- Embedding of `RequestQueue.destroy` (lines 666-673): after draining
(`onIdle`), the queue and the three maps are cleared.  No closed flag is set
and the `PQueue` itself is kept. -/
def destroy (_q : RQState) : RQState :=
  { queued := [], lastRequestTime := [], requestCounts := [],
    rateLimitMap := [] }

/-- Chunks `l` into consecutive pieces of `n` elements (the last piece may be
shorter), mirroring the `for (let i = 0; i < tasks.length; i += batchSize)`
loop of line 594; `fuel` bounds the recursion and `l.length` is always enough
fuel when `0 < n`. -/
def chunkListAux {α : Type} : Nat → Nat → List α → List (List α)
  | 0, _, _ => []
  | _, _, [] => []
  | fuel + 1, n, l => l.take n :: chunkListAux fuel n (l.drop n)

/-- Embedding of `RequestQueue.addBatch` (lines 578-627).  Each task's
eventual settled outcome (through `this.add`, i.e. after its retries) is
given as an element of `outcomes`; `Promise.allSettled` (line 601) yields one
outcome per task of the batch in input order, the fulfilled values are pushed
onto the running result (line 616) and the rejected reasons are only logged
(lines 607-614).  The function returns the final `results` array. -/
def addBatch {ε α : Type} (batchSize : Nat) (outcomes : List (Except ε α)) :
    List α :=
  ((chunkListAux outcomes.length batchSize outcomes).map
    (fun batch => batch.filterMap Except.toOption)).flatten

/-- The option bags used for the `this.add(task)` calls issued by
`RequestQueue.addBatch` on line 600: one per task, with no options
supplied. -/
def addBatchSubmitOptions (n : Nat) : List AddOptions :=
  List.replicate n {}

end Scrapper.RequestQueue

namespace Scrapper.ProgressTracker

/-! ### ProgressTracker (src/services/ProgressTracker.ts) -/

/-- Embedding of the `DownloadStatus` enum (src/types/index.ts, lines
165-171).  The enum has exactly these five members; there is no cancelled
member. -/
inductive DownloadStatus
  | pending
  | downloading
  | completed
  | failed
  | paused
  deriving DecidableEq, Repr

/-- Embedding of the `ProgressEntry` interface (lines 7-20) together with the
untyped `lastDownloadedBytes` expando field that `calculateSpeed` stores on
the entry (line 55); `none` models the field being absent. -/
structure ProgressEntry where
  id : String
  seriesName : String
  episodeName : String
  status : DownloadStatus
  currentPage : Int
  totalPages : Int
  downloadedBytes : Int
  totalBytes : Int
  startTime : Int
  lastUpdate : Int
  speed : ℚ
  errors : List String
  lastDownloadedBytes : Option Int
  deriving DecidableEq, Repr

/-- Events emitted by the tracker (only the identity of the record matters
for the claims; the payloads are projections of the entry). -/
inductive PTEvent
  | progressStart (id : String)
  | progressUpdate (id : String)
  | progressComplete (id : String)
  | progressPause (id : String)
  | progressResume (id : String)
  | progressCancel (id : String)
  deriving DecidableEq, Repr

/-- State of a `ProgressTracker`: the `activeProgress` and
`completedProgress` maps (lines 23-24). -/
structure Tracker where
  activeProgress : Smap ProgressEntry
  completedProgress : Smap ProgressEntry
  deriving DecidableEq, Repr

/-- Embedding of `ProgressTracker.calculateSpeed` (lines 48-59) at time
`now`: when time advanced since `lastUpdate`, the speed becomes the byte
delta since the previous sample divided by the elapsed seconds (the JS
`bytesDiff` expression evaluates to `0` when `lastDownloadedBytes` was never
written); `lastUpdate` is refreshed in all cases. -/
def calculateSpeed (entry : ProgressEntry) (now : Int) : ProgressEntry :=
  let timeDiff : ℚ := ((now - entry.lastUpdate : Int) : ℚ) / 1000
  let entry1 :=
    if 0 < timeDiff then
      let bytesDiff : ℚ :=
        match entry.lastDownloadedBytes with
        | some b => ((entry.downloadedBytes - b : Int) : ℚ)
        | none => 0
      { entry with
        speed := bytesDiff / timeDiff,
        lastDownloadedBytes := some entry.downloadedBytes }
    else entry
  { entry1 with lastUpdate := now }

/-- Embedding of `ProgressTracker.calculateETA` (lines 78-87): zero when the
speed is nonpositive or the record is at (or past) its last page, otherwise
the remaining pages times the average time per page. -/
def calculateETA (entry : ProgressEntry) : ℚ :=
  if entry.speed ≤ 0 ∨ entry.totalPages ≤ entry.currentPage then 0
  else
    let remainingPages : ℚ := ((entry.totalPages - entry.currentPage : Int) : ℚ)
    let avgTimePerPage : ℚ := if 0 < entry.speed then 1000 / entry.speed else 0
    remainingPages * avgTimePerPage

/-- Embedding of `ProgressTracker.start` (lines 116-140). -/
def Tracker.start (t : Tracker) (id : String) (totalPages : Int)
    (seriesName episodeName : String) (now : Int) : Tracker × List PTEvent :=
  let entry : ProgressEntry :=
    { id := id, seriesName := seriesName, episodeName := episodeName,
      status := .pending, currentPage := 0, totalPages := totalPages,
      downloadedBytes := 0, totalBytes := 0, startTime := now,
      lastUpdate := now, speed := 0, errors := [],
      lastDownloadedBytes := none }
  ({ t with activeProgress := t.activeProgress.set id entry },
   [.progressStart id])

/-- The `additionalData` options bag of `ProgressTracker.updateProgress`
(lines 145-149). -/
structure UpdateData where
  downloadedBytes : Option Int := none
  totalBytes : Option Int := none
  error : Option String := none
  deriving DecidableEq, Repr

/-- Embedding of `ProgressTracker.updateProgress` (lines 142-186) at time
`now`: a missing id only logs a warning and returns (line 152-155); otherwise
the entry is updated in place, its speed is resampled and a `progressUpdate`
event is emitted. -/
def Tracker.updateProgress (t : Tracker) (id : String) (currentPage : Int)
    (ad : UpdateData) (now : Int) : Tracker × List PTEvent :=
  match t.activeProgress.lookup id with
  | none => (t, [])
  | some entry =>
    let e1 := { entry with currentPage := currentPage, status := .downloading }
    let e2 :=
      match ad.downloadedBytes with
      | some b => { e1 with downloadedBytes := b }
      | none => e1
    let e3 :=
      match ad.totalBytes with
      | some b => { e2 with totalBytes := b }
      | none => e2
    let e4 :=
      match ad.error with
      | some msg => { e3 with errors := e3.errors ++ [msg] }
      | none => e3
    let e5 := calculateSpeed e4 now
    ({ t with activeProgress := t.activeProgress.set id e5 },
     [.progressUpdate id])

/-- Embedding of `ProgressTracker.complete` (lines 188-214) at time `now`: a
missing id only logs a warning and returns; otherwise the status becomes
`completed` or `failed`, on success `currentPage` is set to `totalPages`, a
`progressComplete` event is emitted and the record moves from the active map
to the completed map. -/
def Tracker.complete (t : Tracker) (id : String) (success : Bool)
    (now : Int) : Tracker × List PTEvent :=
  match t.activeProgress.lookup id with
  | none => (t, [])
  | some entry =>
    let e1 := { entry with
      status := if success then DownloadStatus.completed else .failed,
      lastUpdate := now }
    let e2 := if success then { e1 with currentPage := e1.totalPages } else e1
    ({ activeProgress := t.activeProgress.erase id,
       completedProgress := t.completedProgress.set id e2 },
     [.progressComplete id])

/-- Embedding of `ProgressTracker.pause` (lines 216-223): no-op when the id
is not in the active map. -/
def Tracker.pause (t : Tracker) (id : String) : Tracker × List PTEvent :=
  match t.activeProgress.lookup id with
  | none => (t, [])
  | some entry =>
    ({ t with
       activeProgress := t.activeProgress.set id
         { entry with status := .paused } },
     [.progressPause id])

/-- Embedding of `ProgressTracker.resume` (lines 225-232): no-op when the id
is not in the active map. -/
def Tracker.resume (t : Tracker) (id : String) : Tracker × List PTEvent :=
  match t.activeProgress.lookup id with
  | none => (t, [])
  | some entry =>
    ({ t with
       activeProgress := t.activeProgress.set id
         { entry with status := .downloading } },
     [.progressResume id])

/-- Embedding of `ProgressTracker.cancel` (lines 234-245): no-op when the id
is not in the active map; otherwise the status is set to
`DownloadStatus.FAILED` (line 237 — the enum has no cancelled member), a
`progressCancel` event is emitted and the record moves from the active map to
the completed map. -/
def Tracker.cancel (t : Tracker) (id : String) : Tracker × List PTEvent :=
  match t.activeProgress.lookup id with
  | none => (t, [])
  | some entry =>
    let e1 := { entry with status := DownloadStatus.failed }
    ({ activeProgress := t.activeProgress.erase id,
       completedProgress := t.completedProgress.set id e1 },
     [.progressCancel id])

end Scrapper.ProgressTracker

namespace Scrapper.ImageDownloader

/-! ### ImageDownloader (src/services/ImageDownloader.ts) -/

/-- The observable shape of the HTTP response consumed by
`downloadSingleImage`: the declared `content-type` header (absent as
`none`), the number of bytes the body stream yields before ending, and
whether streaming the body to the file completes without error. -/
structure ImgResponse where
  contentType : Option String
  streamBytes : Nat
  streamOk : Bool
  deriving DecidableEq, Repr

/-- Cause of a failed `downloadSingleImage` call.  Both causes surface as a
`DownloadError` with code `DOWNLOAD_FAILED` thrown from the catch block
(lines 269-274); `invalidContentType` records that the inner throw was the
`DownloadError('Invalid content type', 'INVALID_CONTENT_TYPE', …)` of line
227. -/
inductive DlFailureCause
  | invalidContentType
  | streamFailed
  deriving DecidableEq, Repr

/-- Result of a `downloadSingleImage` call: the returned byte count or the
failure cause, together with the file present at the sink path afterwards
(`some n` for a file of `n` bytes, `none` for no file). -/
structure DlOutcome where
  result : Except DlFailureCause Nat
  fileAtPath : Option Nat
  deriving Repr

/-- Computes the check `response.headers['content-type']?.includes('image')`
of line 226: false when the header is absent. -/
def imageContentType (ct : Option String) : Bool :=
  match ct with
  | some s => containsSeq "image".data s.data
  | none => false

/-- The try block of `downloadSingleImage` (lines 206-275): a response whose
content type does not include `'image'` throws before anything is written;
a stream error leaves a partial file; in both cases the catch block deletes
whatever file is at the sink path and rethrows, so no file remains.  A
completed stream succeeds with whatever byte count the stream produced —
there is no minimum-size check on the downloaded bytes. -/
def fetchAndStream (resp : ImgResponse) : DlOutcome :=
  if imageContentType resp.contentType = false then
    { result := .error .invalidContentType, fileAtPath := none }
  else if resp.streamOk = false then
    { result := .error .streamFailed, fileAtPath := none }
  else
    { result := .ok resp.streamBytes, fileAtPath := some resp.streamBytes }

/-- Embedding of `ImageDownloader.downloadSingleImage` (lines 188-276).
`existingSize` is the size of the file already at the sink path (`none` when
absent).  When `skipExisting` is set and such a file exceeds 1000 bytes
(lines 199-204) the download is skipped; otherwise the fetch runs. -/
def downloadSingleImage (skipExisting : Bool) (existingSize : Option Nat)
    (resp : ImgResponse) : DlOutcome :=
  match existingSize, skipExisting with
  | some n, true =>
    if 1000 < n then { result := .ok n, fileAtPath := some n }
    else fetchAndStream resp
  | _, _ => fetchAndStream resp

end Scrapper.ImageDownloader

namespace Scrapper

/-! ### Helper lemmas -/

theorem RequestQueue.flatten_chunkListAux {α : Type} (n : Nat) (hn : 0 < n) :
    ∀ (fuel : Nat) (l : List α), l.length ≤ fuel →
      (RequestQueue.chunkListAux fuel n l).flatten = l := by
  intro fuel
  induction fuel with
  | zero =>
    intro l hl
    have : l = [] := List.eq_nil_of_length_eq_zero (Nat.le_zero.mp hl)
    subst this
    simp [RequestQueue.chunkListAux]
  | succ f ih =>
    intro l hl
    cases l with
    | nil => simp [RequestQueue.chunkListAux]
    | cons x xs =>
      have hdrop : ((x :: xs).drop n).length ≤ f := by
        simp only [List.length_drop, List.length_cons]
        simp only [List.length_cons] at hl
        omega
      simp only [RequestQueue.chunkListAux, List.flatten_cons, ih _ hdrop]
      exact List.take_append_drop n (x :: xs)

theorem flatten_map_filterMap {α β : Type} (f : α → Option β) :
    ∀ L : List (List α),
      (L.map (fun l => l.filterMap f)).flatten = L.flatten.filterMap f := by
  intro L
  induction L with
  | nil => simp
  | cons l L ih =>
    simp only [List.map_cons, List.flatten_cons]
    rw [List.filterMap_append, ih]

theorem RequestQueue.enforceRateLimit_pair_spacing (delay : Int)
    (st : RequestQueue.RateState) (dom : String) (now₁ now₂ : Int) :
    delay ≤
      (RequestQueue.enforceRateLimit delay
          (RequestQueue.enforceRateLimit delay st dom now₁).2 dom now₂).1 -
        (RequestQueue.enforceRateLimit delay st dom now₁).1 := by
  simp only [RequestQueue.enforceRateLimit, Smap.lookup_set_self,
    Option.getD_some]
  split_ifs <;> omega

theorem ProgressTracker.updateProgress_missing
    (t : ProgressTracker.Tracker) (id : String) (p : Int)
    (ad : ProgressTracker.UpdateData) (now : Int)
    (h : t.activeProgress.lookup id = none) :
    t.updateProgress id p ad now = (t, []) := by
  unfold ProgressTracker.Tracker.updateProgress
  rw [h]

theorem ProgressTracker.complete_missing (t : ProgressTracker.Tracker)
    (id : String) (b : Bool) (now : Int)
    (h : t.activeProgress.lookup id = none) :
    t.complete id b now = (t, []) := by
  unfold ProgressTracker.Tracker.complete
  rw [h]

theorem ProgressTracker.pause_missing (t : ProgressTracker.Tracker)
    (id : String) (h : t.activeProgress.lookup id = none) :
    t.pause id = (t, []) := by
  unfold ProgressTracker.Tracker.pause
  rw [h]

theorem ProgressTracker.resume_missing (t : ProgressTracker.Tracker)
    (id : String) (h : t.activeProgress.lookup id = none) :
    t.resume id = (t, []) := by
  unfold ProgressTracker.Tracker.resume
  rw [h]

theorem ProgressTracker.cancel_missing (t : ProgressTracker.Tracker)
    (id : String) (h : t.activeProgress.lookup id = none) :
    t.cancel id = (t, []) := by
  unfold ProgressTracker.Tracker.cancel
  rw [h]

/-! ### C1 — `addBatch` outcomes for every input operation -/

/-- C1, counterexample: `addBatch` on the two operations
`[ok 1, error "boom"]` returns the single-element array `[1]` — the failed
operation's outcome is absent from the return value, so the call does not
return a result for every input operation (`succeeded.length + failed.length`
would have to be `2`, but the caller only receives `1` outcome). -/
theorem addBatch_drops_failed_outcome :
    RequestQueue.addBatch 3
        [Except.ok (1 : ℕ), (Except.error "boom" : Except String ℕ)] = [1] ∧
    (RequestQueue.addBatch 3
        [Except.ok (1 : ℕ), (Except.error "boom" : Except String ℕ)]).length
      = 1 ∧
    (1 : ℕ) ≠ 2 := by
  decide

/-- C1 (amended): for every batch size `> 0` and every list of operation
outcomes, `addBatch` settles every operation (a failure never removes the
outcomes of its siblings, and no failure is rethrown) but returns only the
values of the succeeded operations, in input order; the failed outcomes are
logged and dropped, so the return value accounts for all N inputs only when
all N succeed. -/
theorem addBatch_returns_succeeded_only {ε α : Type} (batchSize : Nat)
    (outcomes : List (Except ε α)) (h : 0 < batchSize) :
    RequestQueue.addBatch batchSize outcomes =
      outcomes.filterMap Except.toOption := by
  unfold RequestQueue.addBatch
  rw [flatten_map_filterMap,
    RequestQueue.flatten_chunkListAux batchSize h outcomes.length outcomes
      le_rfl]

/-- Witness for C1: `addBatch` with batch size 2 on
`[ok 5, error "x", ok 7]` returns exactly the succeeded values `[5, 7]`. -/
theorem addBatch_returns_succeeded_only_witness :
    (0 < 2) ∧
    RequestQueue.addBatch 2
        [Except.ok (5 : ℕ), (Except.error "x" : Except String ℕ),
          Except.ok 7] =
      ([Except.ok (5 : ℕ), (Except.error "x" : Except String ℕ),
          Except.ok 7]).filterMap Except.toOption :=
  ⟨by decide, addBatch_returns_succeeded_only 2 _ (by decide)⟩

/-! ### C2 — per-key spacing of consecutive dispatches -/

/-- C2, counterexample: two callers concurrently entering
`enforceRateLimit` for the key `"example.com"` (minimum delay 1000, last
dispatch recorded at 1000, clock 1500) can interleave as read-A, read-B,
write-A, write-B, because the `await sleep` between the read of
`lastRequestTime` and its write is a suspension point and nothing serializes
the check-and-set per key.  Both callers then dispatch at time 2000: two
consecutive dispatches to the same key 0 ms apart, violating the claimed
`≥ 1000` spacing under concurrent dispatch. -/
theorem enforceRateLimit_concurrent_violation :
    (RequestQueue.rlRun 1000 "example.com"
        { callers := [.ready, .ready],
          lastRequestTime := [("example.com", 1000)], clock := 1500 }
        [0, 1, 0, 1]).callers =
      [.done 2000, .done 2000] ∧ (2000 - 2000 : Int) < 1000 := by
  decide

/-- C2 (amended): consecutive dispatches to the same destination key are at
least the configured minimum delay apart when the two `enforceRateLimit`
calls are serialized (the second starts no earlier than the first recorded
dispatch timestamp, as happens for sequential callers).  The source performs
no per-key serialization of the read-sleep-write sequence, so the invariant
is not preserved under concurrent interleaved callers (see the
counterexample). -/
theorem enforceRateLimit_serialized_spacing (delay : Int)
    (st : RequestQueue.RateState) (dom : String) (now₁ now₂ : Int)
    (_h : (RequestQueue.enforceRateLimit delay st dom now₁).1 ≤ now₂) :
    delay ≤
      (RequestQueue.enforceRateLimit delay
          (RequestQueue.enforceRateLimit delay st dom now₁).2 dom now₂).1 -
        (RequestQueue.enforceRateLimit delay st dom now₁).1 :=
  RequestQueue.enforceRateLimit_pair_spacing delay st dom now₁ now₂

/-- Witness for C2: with minimum delay 1000 and a last dispatch at time 0, a
first call at 5000 dispatches at 5000, and a serialized second call at 5200
dispatches at 6000 — exactly 1000 apart. -/
theorem enforceRateLimit_serialized_spacing_witness :
    (RequestQueue.enforceRateLimit 1000
        (⟨[("h", 0)], []⟩ : RequestQueue.RateState) "h" 5000).1 ≤ 5200 ∧
    1000 ≤
      (RequestQueue.enforceRateLimit 1000
          (RequestQueue.enforceRateLimit 1000
              (⟨[("h", 0)], []⟩ : RequestQueue.RateState) "h" 5000).2
          "h" 5200).1 -
        (RequestQueue.enforceRateLimit 1000
            (⟨[("h", 0)], []⟩ : RequestQueue.RateState) "h" 5000).1 :=
  ⟨by decide,
    enforceRateLimit_serialized_spacing 1000 _ "h" 5000 5200 (by decide)⟩

/-! ### C3 — backoff delay formula -/

/-- C3, counterexample: at attempt 1 with zero jitter the source's
`calculateBackoff` returns `1000 * 2^1 = 2000` (multiplier 2, maxDelay
30000), not the `baseDelay = min(1000 * 2^0, 30000) = 1000` that the claimed
formula `min(baseDelay * multiplier^(attempt-1), maxDelay)` prescribes for
the first attempt. -/
theorem calculateBackoff_first_attempt_not_base :
    RequestQueue.calculateBackoff 2 30000 1 0 = 2000 ∧
    RequestQueue.backoffSpecDelay 2 30000 1 0 = 1000 ∧
    RequestQueue.calculateBackoff 2 30000 1 0 ≠
      RequestQueue.backoffSpecDelay 2 30000 1 0 := by
  refine ⟨?_, ?_, ?_⟩ <;>
    norm_num [RequestQueue.calculateBackoff, RequestQueue.backoffSpecDelay]

/-- C3 (amended): the backoff delay for attempt `n` is
`min(baseDelay * multiplier^n, maxDelay)` plus a jitter of `rand * 0.1` of
that value with `rand` drawn from `[0, 1)` — i.e. the exponent is the attempt
number itself, which matches the spec formula evaluated at `attempt + 1`; in
particular the first attempt's pre-jitter delay is
`min(baseDelay * multiplier, maxDelay)`, not `baseDelay`. -/
theorem calculateBackoff_formula (mult maxDelay r : ℚ) (attempt : ℕ) :
    RequestQueue.calculateBackoff mult maxDelay attempt r =
      RequestQueue.backoffSpecDelay mult maxDelay (attempt + 1) r ∧
    RequestQueue.calculateBackoff mult maxDelay 1 0 =
      min (1000 * mult) maxDelay := by
  constructor
  · simp [RequestQueue.calculateBackoff, RequestQueue.backoffSpecDelay]
  · simp [RequestQueue.calculateBackoff, pow_one]

/-! ### C4 — `cancel` and the terminal status -/

/-- Concrete in-flight progress record used to exercise `cancel`. -/
def c4Entry : ProgressTracker.ProgressEntry :=
  { id := "ch-1", seriesName := "series", episodeName := "ep-1",
    status := .downloading, currentPage := 3, totalPages := 10,
    downloadedBytes := 0, totalBytes := 0, startTime := 0, lastUpdate := 0,
    speed := 0, errors := [], lastDownloadedBytes := none }

/-- C4, counterexample: cancelling an active record puts it into the
completed set with status `failed`, and the `DownloadStatus` enum has exactly
the five members `pending`, `downloading`, `completed`, `failed`, `paused` —
there is no sixth `Cancelled` status distinct from `Failed`, contrary to the
claim. -/
theorem cancel_status_is_failed_not_cancelled :
    ((ProgressTracker.Tracker.cancel ⟨[("ch-1", c4Entry)], []⟩
          "ch-1").1.completedProgress.lookup "ch-1").map
        ProgressTracker.ProgressEntry.status =
      some ProgressTracker.DownloadStatus.failed ∧
    ∀ s : ProgressTracker.DownloadStatus,
      s = .pending ∨ s = .downloading ∨ s = .completed ∨ s = .failed ∨
        s = .paused := by
  constructor
  · rfl
  · intro s; cases s <;> simp

/-- C4 (amended): for every record in the active set, `cancel(id)` moves the
record from the active set to the completed set in the terminal `failed`
status (the data model has five statuses and no separate cancelled status),
and the record never transitions afterwards: each subsequent mutation at that
id is a no-op, since the id is no longer in the active set. -/
theorem cancel_terminal_failed (t : ProgressTracker.Tracker) (id : String)
    (entry : ProgressTracker.ProgressEntry)
    (h : t.activeProgress.lookup id = some entry) :
    ((t.cancel id).1.completedProgress.lookup id =
      some { entry with status := .failed }) ∧
    (t.cancel id).1.activeProgress.lookup id = none ∧
    (∀ p ad now, (t.cancel id).1.updateProgress id p ad now =
      ((t.cancel id).1, [])) ∧
    (t.cancel id).1.pause id = ((t.cancel id).1, []) ∧
    (t.cancel id).1.resume id = ((t.cancel id).1, []) ∧
    (t.cancel id).1.cancel id = ((t.cancel id).1, []) ∧
    (∀ b now, (t.cancel id).1.complete id b now = ((t.cancel id).1, [])) := by
  have hc : t.cancel id =
      ({ activeProgress := t.activeProgress.erase id,
         completedProgress := t.completedProgress.set id
           { entry with status := .failed } },
       [.progressCancel id]) := by
    unfold ProgressTracker.Tracker.cancel
    rw [h]
  have hactive : (t.cancel id).1.activeProgress.lookup id = none := by
    rw [hc]
    exact Smap.lookup_erase_self _ _
  refine ⟨?_, hactive, ?_, ?_, ?_, ?_, ?_⟩
  · rw [hc]
    exact Smap.lookup_set_self _ _ _
  · intro p ad now
    exact ProgressTracker.updateProgress_missing _ _ _ _ _ hactive
  · exact ProgressTracker.pause_missing _ _ hactive
  · exact ProgressTracker.resume_missing _ _ hactive
  · exact ProgressTracker.cancel_missing _ _ hactive
  · intro b now
    exact ProgressTracker.complete_missing _ _ _ _ hactive

/-- Witness for C4: cancelling the concrete active record `"ch-1"` lands it
in the completed set with status `failed`, and a second `cancel` on the
result is a no-op. -/
theorem cancel_terminal_failed_witness :
    ((ProgressTracker.Tracker.cancel ⟨[("ch-1", c4Entry)], []⟩
        "ch-1").1.completedProgress.lookup "ch-1" =
      some { c4Entry with status := ProgressTracker.DownloadStatus.failed }) ∧
    (ProgressTracker.Tracker.cancel ⟨[("ch-1", c4Entry)], []⟩
        "ch-1").1.cancel "ch-1" =
      ((ProgressTracker.Tracker.cancel ⟨[("ch-1", c4Entry)], []⟩
        "ch-1").1, []) := by
  have h := cancel_terminal_failed ⟨[("ch-1", c4Entry)], []⟩ "ch-1" c4Entry
    rfl
  exact ⟨h.1, h.2.2.2.2.2.1⟩

/-! ### C5 — behaviour of `add` after `destroy` -/

/-- Concrete queue configuration (the shape handed to the `RequestQueue`
constructor by `BaseManager`). -/
def cfg0 : RequestQueue.QueueConfig :=
  { maxConcurrent := 2, requestDelay := 1000, batchSize := 3,
    maxRetries := 3, backoffMultiplier := 2, maxDelay := 30000 }

/-- Concrete queue state with some accumulated internal state. -/
def q0 : RequestQueue.RQState :=
  { queued := [{ domain := "example.com", priority := 0, maxRetries := 3 }],
    lastRequestTime := [("example.com", 42)],
    requestCounts := [("example.com", 5)],
    rateLimitMap := [] }

/-- C5, counterexample: a submission after `destroy` is accepted and
enqueued, not rejected with a "queue closed" error — the source sets no
closed flag, so `add` has no failure path at submission time. -/
theorem add_after_destroy_enqueued :
    (RequestQueue.add cfg0 (RequestQueue.destroy q0) {}).2 =
      RequestQueue.AddOutcome.enqueued ∧
    (RequestQueue.add cfg0 (RequestQueue.destroy q0) {}).2 ≠
      RequestQueue.AddOutcome.rejected "queue closed" := by
  decide

/-- C5 (amended): `destroy` drains the queue and clears all internal maps,
but marks nothing closed; every subsequent `add` (like every `add` before
`destroy`) is accepted and enqueued — `add` never fails with a "queue
closed" error because no such error path exists. -/
theorem destroy_clears_but_never_closes (cfg : RequestQueue.QueueConfig)
    (q : RequestQueue.RQState) (opts : RequestQueue.AddOptions) :
    (RequestQueue.add cfg (RequestQueue.destroy q) opts).2 =
      RequestQueue.AddOutcome.enqueued ∧
    (RequestQueue.add cfg q opts).2 = RequestQueue.AddOutcome.enqueued ∧
    (RequestQueue.destroy q).queued = [] ∧
    (RequestQueue.destroy q).lastRequestTime = [] ∧
    (RequestQueue.destroy q).requestCounts = [] ∧
    (RequestQueue.destroy q).rateLimitMap = [] :=
  ⟨rfl, rfl, rfl, rfl, rfl, rfl⟩

/-! ### C6 — downloader response validation and cleanup -/

theorem fetchAndStream_fail_no_file (resp : ImageDownloader.ImgResponse)
    (h : (ImageDownloader.fetchAndStream resp).result.isOk = false) :
    (ImageDownloader.fetchAndStream resp).fileAtPath = none := by
  unfold ImageDownloader.fetchAndStream at h ⊢
  split_ifs at h ⊢ <;> simp_all [Except.isOk, Except.toBool]

/-- C6, counterexample: a fetch whose response declares content kind
`image/jpeg` but whose stream ends after only 10 bytes — fewer than the
1000-byte minimum the claim says is enforced — succeeds and leaves the
10-byte file at the sink path: the source checks no minimum byte count on
the downloaded stream (the 1000-byte threshold only guards the
skip-existing fast path). -/
theorem downloadSingleImage_small_stream_succeeds :
    (ImageDownloader.downloadSingleImage false none
        ⟨some "image/jpeg", 10, true⟩).result = Except.ok 10 ∧
    (ImageDownloader.downloadSingleImage false none
        ⟨some "image/jpeg", 10, true⟩).fileAtPath = some 10 ∧
    (10 : ℕ) < 1000 := by
  refine ⟨rfl, rfl, by decide⟩

/-- C6 (amended): whenever a `downloadSingleImage` call fails, no file is
left at the sink path (the partially written file is deleted before the
error propagates), and a response whose declared content kind does not
include `image` fails with the invalid-content-type error without writing
anything; however, no minimum byte count is enforced on the downloaded
stream — a completed stream of any size succeeds. -/
theorem downloadSingleImage_content_guard_and_cleanup
    (skipEx : Bool) (ex : Option ℕ) (resp : ImageDownloader.ImgResponse) :
    ((ImageDownloader.downloadSingleImage skipEx ex resp).result.isOk =
        false →
      (ImageDownloader.downloadSingleImage skipEx ex resp).fileAtPath =
        none) ∧
    (ImageDownloader.imageContentType resp.contentType = false →
      ImageDownloader.downloadSingleImage skipEx none resp =
        { result := .error .invalidContentType, fileAtPath := none }) := by
  constructor
  · intro hfail
    rcases ex with _ | n
    · exact fetchAndStream_fail_no_file resp
        (by simpa [ImageDownloader.downloadSingleImage] using hfail)
    · cases skipEx
      · exact fetchAndStream_fail_no_file resp
          (by simpa [ImageDownloader.downloadSingleImage] using hfail)
      · by_cases hn : 1000 < n
        · simp [ImageDownloader.downloadSingleImage, hn, Except.isOk,
            Except.toBool] at hfail
        · have hres : ImageDownloader.downloadSingleImage true (some n) resp
              = ImageDownloader.fetchAndStream resp := by
            simp [ImageDownloader.downloadSingleImage, hn]
          rw [hres] at hfail ⊢
          exact fetchAndStream_fail_no_file resp hfail
  · intro hct
    cases skipEx <;>
      simp [ImageDownloader.downloadSingleImage,
        ImageDownloader.fetchAndStream, hct]

/-- Witness for C6: a response declaring content kind `text/html` fails with
the invalid-content-type error and leaves no file at the sink path. -/
theorem downloadSingleImage_content_guard_witness :
    ImageDownloader.imageContentType (some "text/html") = false ∧
    ImageDownloader.downloadSingleImage false none
        ⟨some "text/html", 0, true⟩ =
      ({ result := .error .invalidContentType, fileAtPath := none } :
        ImageDownloader.DlOutcome) :=
  ⟨by decide,
    (downloadSingleImage_content_guard_and_cleanup false none
        ⟨some "text/html", 0, true⟩).2 (by decide)⟩

/-! ### C7 — backoff monotonicity and bound -/

/-- C7, counterexample: with the valid configuration multiplier `21/20 > 1`,
maxDelay `30000 > 0`, and admissible jitter draws (`9/10` for attempt 1,
`0` for attempt 2, both within `[0, 1]`), the total delay of attempt 2 is
strictly smaller than that of attempt 1 even though both pre-jitter delays
are still below `maxDelay` — the backoff is not non-decreasing for every
valid configuration and admissible jitter. -/
theorem calculateBackoff_not_monotone_small_multiplier :
    (1 : ℚ) < 21/20 ∧ (0 : ℚ) < 30000 ∧
    (0 : ℚ) ≤ 9/10 ∧ (9/10 : ℚ) ≤ 1 ∧
    min (1000 * ((21 : ℚ)/20) ^ 1) 30000 < 30000 ∧
    min (1000 * ((21 : ℚ)/20) ^ 2) 30000 < 30000 ∧
    RequestQueue.calculateBackoff (21/20) 30000 2 0 <
      RequestQueue.calculateBackoff (21/20) 30000 1 (9/10) := by
  refine ⟨by norm_num, by norm_num, by norm_num, by norm_num, ?_, ?_, ?_⟩ <;>
    norm_num [RequestQueue.calculateBackoff, min_def]

/-- C7 (amended): for every admissible jitter draw the total backoff delay
never exceeds `maxDelay * 1.1`; and the delay is non-decreasing in the
attempt number — for any admissible jitter draws — whenever the multiplier is
at least `1.1` and the exponential term has not yet reached `maxDelay` (for
multipliers strictly between 1 and 1.1 an adversarial jitter pair can make it
decrease, see the counterexample). -/
theorem calculateBackoff_bounded_and_mono (mult maxDelay r r' : ℚ) (n : ℕ)
    (hr0 : 0 ≤ r) (hr1 : r ≤ 1) (hr0' : 0 ≤ r') (_hr1' : r' ≤ 1)
    (hmd : 0 ≤ maxDelay) (hm : 1 ≤ mult) :
    RequestQueue.calculateBackoff mult maxDelay n r ≤ maxDelay * (11/10) ∧
    (11/10 ≤ mult → 1000 * mult ^ (n + 1) ≤ maxDelay →
      RequestQueue.calculateBackoff mult maxDelay n r ≤
        RequestQueue.calculateBackoff mult maxDelay (n + 1) r') := by
  have hm0 : (0 : ℚ) ≤ mult := le_trans zero_le_one hm
  have hpow : (0 : ℚ) ≤ 1000 * mult ^ n := by positivity
  have hpow1 : (0 : ℚ) ≤ 1000 * mult ^ (n + 1) := by positivity
  constructor
  · simp only [RequestQueue.calculateBackoff]
    have hd0 : 0 ≤ min (1000 * mult ^ n) maxDelay := le_min hpow hmd
    have hdm : min (1000 * mult ^ n) maxDelay ≤ maxDelay :=
      min_le_right _ _
    nlinarith [mul_nonneg hr0 hd0]
  · intro h11 hcap
    have hmono : mult ^ n ≤ mult ^ (n + 1) :=
      pow_le_pow_right₀ hm (Nat.le_succ n)
    have hstep : 1000 * mult ^ n ≤ 1000 * mult ^ (n + 1) := by
      nlinarith
    have hcapn : 1000 * mult ^ n ≤ maxDelay := le_trans hstep hcap
    simp only [RequestQueue.calculateBackoff]
    rw [min_eq_left hcapn, min_eq_left hcap]
    have hsucc : mult ^ (n + 1) = mult ^ n * mult := pow_succ mult n
    nlinarith [mul_nonneg hr0' hpow1, mul_nonneg hpow (sub_nonneg.mpr h11),
      mul_le_mul_of_nonneg_right hr1 hpow]

/-- Witness for C7: with multiplier 2, maxDelay 30000, attempt 1 at maximal
jitter and attempt 2 at zero jitter, the attempt-1 delay is below
`30000 * 1.1` and below the attempt-2 delay. -/
theorem calculateBackoff_bounded_and_mono_witness :
    RequestQueue.calculateBackoff 2 30000 1 1 ≤ 30000 * (11/10) ∧
    RequestQueue.calculateBackoff 2 30000 1 1 ≤
      RequestQueue.calculateBackoff 2 30000 2 0 := by
  have h := calculateBackoff_bounded_and_mono 2 30000 1 0 1 (by norm_num)
    (by norm_num) (by norm_num) (by norm_num) (by norm_num) (by norm_num)
  exact ⟨h.1, h.2 (by norm_num) (by norm_num)⟩

/-! ### C8 — clamping on successful completion and zero ETA -/

/-- C8: after `complete(id, success=true)` the record in the completed set
has `currentPage` equal to `totalPages` — so it never exceeds it — and
`calculateETA` returns zero for every entry whose speed is zero or negative
or whose `currentPage` has reached `totalPages`. -/
theorem complete_clamps_and_eta_zero (t : ProgressTracker.Tracker)
    (id : String) (entry : ProgressTracker.ProgressEntry) (now : Int)
    (h : t.activeProgress.lookup id = some entry) :
    (∃ e, (t.complete id true now).1.completedProgress.lookup id = some e ∧
      e.currentPage = e.totalPages ∧ ¬ e.totalPages < e.currentPage) ∧
    (∀ e : ProgressTracker.ProgressEntry,
      e.speed ≤ 0 ∨ e.totalPages ≤ e.currentPage →
        ProgressTracker.calculateETA e = 0) := by
  constructor
  · have hc : (t.complete id true now).1.completedProgress =
        t.completedProgress.set id
          { entry with
              status := .completed
              lastUpdate := now
              currentPage := entry.totalPages } := by
      unfold ProgressTracker.Tracker.complete
      rw [h]
      rfl
    refine ⟨{ entry with
        status := .completed
        lastUpdate := now
        currentPage := entry.totalPages }, ?_, rfl, ?_⟩
    · rw [hc]
      exact Smap.lookup_set_self _ _ _
    · simp
  · intro e he
    unfold ProgressTracker.calculateETA
    rw [if_pos he]

/-- Witness for C8: completing the concrete record `"ch-1"` (3 of 10 pages)
with `success = true` leaves `currentPage = totalPages` in the completed set,
and the ETA of the zero-speed entry `c4Entry` is 0. -/
theorem complete_clamps_and_eta_zero_witness :
    (∃ e, (ProgressTracker.Tracker.complete ⟨[("ch-1", c4Entry)], []⟩
        "ch-1" true 99).1.completedProgress.lookup "ch-1" = some e ∧
      e.currentPage = e.totalPages ∧ ¬ e.totalPages < e.currentPage) ∧
    ProgressTracker.calculateETA c4Entry = 0 := by
  have h := complete_clamps_and_eta_zero ⟨[("ch-1", c4Entry)], []⟩ "ch-1"
    c4Entry 99 rfl
  exact ⟨h.1, h.2 c4Entry (Or.inl (by decide))⟩

/-! ### C9 — the shared `'unknown'` destination key -/

/-- C9, counterexample: tasks submitted without a url option all use the
destination key `"unknown"`, but two of them dispatching concurrently
through that shared rate-limit state can interleave their
read-sleep-write sequences (nothing serializes the check-and-set), both
dispatching at time 1000 — 0 ms apart, not the claimed `≥ requestDelay`
(1000 ms) spacing. -/
theorem unknown_key_concurrent_violation :
    (RequestQueue.addItem cfg0 {}).domain = "unknown" ∧
    (RequestQueue.rlRun 1000 "unknown"
        { callers := [.ready, .ready], lastRequestTime := [], clock := 500 }
        [0, 1, 0, 1]).callers = [.done 1000, .done 1000] ∧
    (1000 - 1000 : Int) < 1000 := by
  refine ⟨rfl, by decide, by decide⟩

/-- C9 (amended): every task submitted to `add` without a url option — and
therefore every task submitted through `addBatch`, which passes no options —
uses the constant destination key `"unknown"`, so all such tasks share a
single rate-limit state regardless of their actual remote destination;
dispatches through that shared state that are serialized are spaced at least
`requestDelay` apart, but concurrently interleaved dispatches can be closer
(see the counterexample). -/
theorem addBatch_tasks_share_unknown_key (cfg : RequestQueue.QueueConfig)
    (opts : RequestQueue.AddOptions) (n : Nat)
    (st : RequestQueue.RateState) (now₁ now₂ : Int)
    (hurl : opts.url = none) :
    (RequestQueue.addItem cfg opts).domain = "unknown" ∧
    (∀ o ∈ RequestQueue.addBatchSubmitOptions n,
      (RequestQueue.addItem cfg o).domain = "unknown") ∧
    cfg.requestDelay ≤
      (RequestQueue.enforceRateLimit cfg.requestDelay
          (RequestQueue.enforceRateLimit cfg.requestDelay st "unknown"
            now₁).2 "unknown" now₂).1 -
        (RequestQueue.enforceRateLimit cfg.requestDelay st "unknown"
          now₁).1 := by
  refine ⟨?_, ?_, RequestQueue.enforceRateLimit_pair_spacing _ _ _ _ _⟩
  · rw [RequestQueue.addItem, hurl]
    rfl
  · intro o ho
    have ho' : o = {} := List.eq_of_mem_replicate ho
    rw [ho']
    rfl

/-- Witness for C9: with the concrete configuration `cfg0`
(`requestDelay = 1000`), a defaulted submission uses key `"unknown"` and two
serialized dispatches through the empty rate state are at least 1000 ms
apart. -/
theorem addBatch_tasks_share_unknown_key_witness :
    (RequestQueue.addItem cfg0 {}).domain = "unknown" ∧
    cfg0.requestDelay ≤
      (RequestQueue.enforceRateLimit cfg0.requestDelay
          (RequestQueue.enforceRateLimit cfg0.requestDelay
            (⟨[], []⟩ : RequestQueue.RateState) "unknown" 0).2 "unknown"
          2000).1 -
        (RequestQueue.enforceRateLimit cfg0.requestDelay
          (⟨[], []⟩ : RequestQueue.RateState) "unknown" 0).1 := by
  have h := addBatch_tasks_share_unknown_key cfg0 {} 2
    (⟨[], []⟩ : RequestQueue.RateState) 0 2000 rfl
  exact ⟨h.1, h.2.2⟩

/-! ### C10 — mutations at a missing id are silent no-ops -/

/-- C10: for every id with no record in the active set, each of
`updateProgress`, `pause`, `resume`, `cancel` and `complete` returns the
tracker unchanged and emits no event — no error, no record created, every
existing record (active and completed) untouched. -/
theorem missing_id_mutations_noop (t : ProgressTracker.Tracker) (id : String)
    (p : Int) (ad : ProgressTracker.UpdateData) (now : Int) (b : Bool)
    (h : t.activeProgress.lookup id = none) :
    t.updateProgress id p ad now = (t, []) ∧
    t.pause id = (t, []) ∧
    t.resume id = (t, []) ∧
    t.cancel id = (t, []) ∧
    t.complete id b now = (t, []) :=
  ⟨ProgressTracker.updateProgress_missing t id p ad now h,
   ProgressTracker.pause_missing t id h,
   ProgressTracker.resume_missing t id h,
   ProgressTracker.cancel_missing t id h,
   ProgressTracker.complete_missing t id b now h⟩

/-- Witness for C10: on a tracker whose active set is empty (the id `"ch-1"`
exists only in the completed set), every mutation at `"ch-1"` returns the
tracker unchanged with no events. -/
theorem missing_id_mutations_noop_witness :
    ProgressTracker.Tracker.updateProgress
        ⟨[], [("ch-1", c4Entry)]⟩ "ch-1" 5 {} 50 =
      (⟨[], [("ch-1", c4Entry)]⟩, []) ∧
    ProgressTracker.Tracker.pause ⟨[], [("ch-1", c4Entry)]⟩ "ch-1" =
      (⟨[], [("ch-1", c4Entry)]⟩, []) ∧
    ProgressTracker.Tracker.resume ⟨[], [("ch-1", c4Entry)]⟩ "ch-1" =
      (⟨[], [("ch-1", c4Entry)]⟩, []) ∧
    ProgressTracker.Tracker.cancel ⟨[], [("ch-1", c4Entry)]⟩ "ch-1" =
      (⟨[], [("ch-1", c4Entry)]⟩, []) ∧
    ProgressTracker.Tracker.complete ⟨[], [("ch-1", c4Entry)]⟩ "ch-1" true 50 =
      (⟨[], [("ch-1", c4Entry)]⟩, []) :=
  missing_id_mutations_noop ⟨[], [("ch-1", c4Entry)]⟩ "ch-1" 5 {} 50 true rfl

end Scrapper
